import Mathlib

/-!
Verification of the Medassist signed-credential session verification and
role-gate layer against its implementation.

Client side, from src/fix-auth-template.js: an async IIFE reads the stored
credential from localStorage, calls GET /auth/me with a Bearer header, and
either redirects to login.html, alerts on a role mismatch, or caches the
returned user and lets the page proceed.

Server side, from the getMe controller in the migration document
(src/unnamed/part_001): findById with a -password projection, a 404
"User not found" rejection when no record matches, and a success payload
whose role-specific fields are spread in only for the matching role. The
authMiddleware body is not part of the sources, so its rejection is
modelled from the spec (see authFailureResponse).
-/

namespace Medassist

/-! ## Client storage model (window.localStorage) -/

/-- A snapshot of window.localStorage: an association list from key to
stored string, first binding wins. -/
abbrev Store := List (String × String)

/-- localStorage.getItem: the value bound to the key, none when absent. -/
def storeGet : Store → String → Option String
  | [], _ => none
  | (k, v) :: rest, key => if k = key then some v else storeGet rest key

/-- localStorage.setItem: replace the binding for the key, or append it. -/
def storeSet : Store → String → String → Store
  | [], key, v => [(key, v)]
  | (k, w) :: rest, key, v =>
      if k = key then (key, v) :: rest else (k, w) :: storeSet rest key v

/-- setItem leaves every other key untouched. -/
theorem storeGet_storeSet_ne (s : Store) (k v k2 : String) (h : k2 ≠ k) :
    storeGet (storeSet s k v) k2 = storeGet s k2 := by
  induction s with
  | nil =>
      simp [storeSet, storeGet, Ne.symm h]
  | cons hd tl ih =>
      obtain ⟨a, b⟩ := hd
      by_cases ha : a = k
      · subst ha
        simp [storeSet, storeGet, Ne.symm h]
      · simp [storeSet, storeGet, ha, ih]

/-! ## The JSON user object handed to the client -/

/-- The parsed data.data.user object of the /auth/me response, as the
client sees it: the role field it inspects, plus the remaining JSON
fields, which the gate treats as opaque. -/
structure UserJson where
  role : String
  fields : List (String × String)
deriving DecidableEq, Repr

/-- Stands for JSON.stringify on the user object: a concrete injective
serialization; the gate only ever stores it, never parses it. -/
def stringifyUser (u : UserJson) : String :=
  u.fields.foldl (fun acc kv => acc ++ "," ++ kv.1 ++ ":" ++ kv.2)
    ("role:" ++ u.role)

/-! ## The fetch to GET /auth/me, as observed by the client -/

/-- Outcome of the awaited fetch of the Session Endpoint.
netFailure: fetch (or response.json) rejects, landing in the catch block.
response ok body: an HTTP response; ok mirrors response.ok; body is the
parsed data.data.user, none when the JSON body cannot be parsed or lacks
the data.data.user nesting (which also lands in the catch block). -/
inductive FetchResult where
  | netFailure
  | response (ok : Bool) (body : Option UserJson)
deriving DecidableEq, Repr

/-! ## The Client Gate (src/fix-auth-template.js) -/

/-- Terminal state of the Client Gate for one protected view load. -/
inductive GateOutcome where
  | authorized
  | redirecting (target : String)
deriving DecidableEq, Repr

/-- Observable result of one run of the gate: terminal state, the
localStorage contents after the run, the alert messages shown, and how
many network calls were issued. -/
structure GateResult where
  outcome : GateOutcome
  store : Store
  alerts : List String
  fetches : Nat
deriving DecidableEq, Repr

/-- The shared result of every rejection branch that runs
localStorage.clear() and window.location.replace after one fetch. -/
def rejectionResult : GateResult :=
  { outcome := .redirecting "login.html"
    store := []
    alerts := []
    fetches := 1 }

/-- The part of the gate after the token check: the awaited fetch, the
response.ok test, JSON parsing, the role comparison, and the userCache
write, exactly as in the try/catch of the IIFE. -/
def gateAfterFetch (required : String) (store : Store) (fetch : FetchResult) :
    GateResult :=
  match fetch with
  | .netFailure => rejectionResult
  | .response ok body =>
      if ok then
        match body with
        | none => rejectionResult
        | some u =>
            if u.role ≠ required then
              { outcome := .redirecting "login.html"
                store := []
                alerts := ["Access denied. " ++ required ++ " role required."]
                fetches := 1 }
            else
              { outcome := .authorized
                store := storeSet store "userCache" (stringifyUser u)
                alerts := []
                fetches := 1 }
      else rejectionResult

/-- The Client Gate IIFE of src/fix-auth-template.js, for a view whose
required role is the EXPECTED_ROLE placeholder. Reads only the token key;
an absent token, and also the falsy empty-string token, redirects with no
network call and no storage write. -/
def clientGate (required : String) (store : Store) (fetch : FetchResult) :
    GateResult :=
  match storeGet store "token" with
  | none =>
      { outcome := .redirecting "login.html"
        store := store
        alerts := []
        fetches := 0 }
  | some tok =>
      if tok = "" then
        { outcome := .redirecting "login.html"
          store := store
          alerts := []
          fetches := 0 }
      else gateAfterFetch required store fetch

/-- With a non-empty token in the store, the gate runs its try block. -/
theorem clientGate_token_some (required : String) (store : Store)
    (fetch : FetchResult) (tok : String)
    (h : storeGet store "token" = some tok) (ht : tok ≠ "") :
    clientGate required store fetch = gateAfterFetch required store fetch := by
  unfold clientGate
  rw [h]
  simp [ht]

/-- The terminal state of the post-fetch part never depends on the
incoming storage contents: the store is only written, never read, after
the token check. -/
theorem gateAfterFetch_outcome_const (required : String) (s₁ s₂ : Store)
    (fetch : FetchResult) :
    (gateAfterFetch required s₁ fetch).outcome
      = (gateAfterFetch required s₂ fetch).outcome := by
  cases fetch with
  | netFailure => rfl
  | response ok body =>
      cases ok with
      | false => rfl
      | true =>
          cases body with
          | none => rfl
          | some u =>
              by_cases hrole : u.role = required <;>
                simp [gateAfterFetch, hrole]

/-! ## Server side: Verification Middleware and the Session Endpoint -/

/-- The claims decoded from a JWT by the middleware: userId, email, role
(part_001: "Extracts userId, email, role from JWT payload"). -/
structure JwtPayload where
  userId : String
  email : String
  role : String
deriving DecidableEq, Repr

/-- The ways credential verification itself can fail before any identity
lookup happens. -/
inductive VerifyError where
  | malformed
  | signatureInvalid
  | expired
deriving DecidableEq, Repr

/-- The authoritative MongoDB user document, with the fields the getMe
controller projects plus the stored password hash and the role-specific
profile fields. -/
structure UserRecord where
  id : String
  name : String
  email : String
  role : String
  phone : String
  address : String
  createdAt : String
  password : String
  pharmacyName : String
  licenseNumber : String
  firstName : String
  vehicleType : String
deriving DecidableEq, Repr

/-- The user object getMe returns: identity fields plus role-specific
fields that are present (some) only when spread in. It has no password
field at all, mirroring findById(...).select(-password). -/
structure UserProjection where
  id : String
  name : String
  email : String
  role : String
  phone : String
  address : String
  createdAt : String
  pharmacyName : Option String
  licenseNumber : Option String
  firstName : Option String
  vehicleType : Option String
deriving DecidableEq, Repr

/-- The object literal built in getMe: plain identity fields always, the
pharmacy pair spread in only when role is pharmacy, the delivery pair
only when role is delivery. The password is never read. -/
def projectUser (u : UserRecord) : UserProjection :=
  { id := u.id
    name := u.name
    email := u.email
    role := u.role
    phone := u.phone
    address := u.address
    createdAt := u.createdAt
    pharmacyName := if u.role = "pharmacy" then some u.pharmacyName else none
    licenseNumber := if u.role = "pharmacy" then some u.licenseNumber else none
    firstName := if u.role = "delivery" then some u.firstName else none
    vehicleType := if u.role = "delivery" then some u.vehicleType else none }

/-- Replace only the stored password hash of a record. -/
def withPassword (u : UserRecord) (pw : String) : UserRecord :=
  { u with password := pw }

/-- What goes over the wire for one /auth/me request: HTTP status, the
success flag and message of the response body, and the data.data.user
object when present. -/
structure WireResponse where
  status : Nat
  success : Bool
  message : String
  user : Option UserProjection
deriving DecidableEq, Repr

/-- Modelled from the spec: the authMiddleware body is not among the
sources, only the route router.get that installs it before getMe. Per the
spec, on a missing or invalid credential it fails with one generic
Unauthenticated rejection that does not say which validation step failed,
as a non-2xx status with a success:false body. -/
def authFailureResponse : WireResponse :=
  { status := 401, success := false, message := "Unauthenticated", user := none }

/-- The getMe controller of src/unnamed/part_001, run with the verified
payload the middleware attached to req.user: findById on the identity
store, errorResponse 404 "User not found" when no record matches,
otherwise successResponse with the projected user. -/
def getMe (p : JwtPayload) (db : String → Option UserRecord) : WireResponse :=
  match db p.userId with
  | none =>
      { status := 404, success := false, message := "User not found", user := none }
  | some rec =>
      { status := 200
        success := true
        message := "User profile retrieved"
        user := some (projectUser rec) }

/-- GET /auth/me as a whole: the middleware verdict decides whether getMe
runs at all; any verification error is answered by the middleware alone. -/
def sessionEndpoint (v : Except VerifyError JwtPayload)
    (db : String → Option UserRecord) : WireResponse :=
  match v with
  | .error _ => authFailureResponse
  | .ok p => getMe p db

/-! ## Page-load event order

The gate is a fire-and-forget async IIFE in an inline classic script at
the top of the protected page body. The HTML parser is blocked only while
the script runs synchronously; an async function returns to its caller at
its first await, so the parser resumes and the protected markup after the
script renders while the fetch is still pending. The continuation of the
IIFE runs only when the awaited promise settles. The trace below lists
the observable events of one protected view load in that order. -/

/-- Observable events of one protected view load. -/
inductive PageEvent where
  | gateStart
  | fetchIssued
  | render
  | alertShown (msg : String)
  | storageCleared
  | cacheWrite
  | authorized
  | redirect (target : String)
deriving DecidableEq, Repr

/-- The events of the IIFE continuation, after the awaited fetch
settles: the same branch structure as gateAfterFetch. -/
def gateContinuation (required : String) (fetch : FetchResult) :
    List PageEvent :=
  match fetch with
  | .netFailure => [.storageCleared, .redirect "login.html"]
  | .response ok body =>
      if ok then
        match body with
        | none => [.storageCleared, .redirect "login.html"]
        | some u =>
            if u.role ≠ required then
              [.alertShown ("Access denied. " ++ required ++ " role required."),
               .storageCleared, .redirect "login.html"]
            else [.cacheWrite, .authorized]
      else [.storageCleared, .redirect "login.html"]

/-- One protected view load. With no usable token the script redirects
synchronously, before the parser reaches the protected markup. With a
token, the synchronous part of the IIFE ends at the await of the fetch:
the parser resumes and the protected content renders, and only afterwards
does the continuation deliver the verdict. -/
def pageLoadTrace (required : String) (store : Store) (fetch : FetchResult) :
    List PageEvent :=
  match storeGet store "token" with
  | none => [.gateStart, .redirect "login.html"]
  | some tok =>
      if tok = "" then [.gateStart, .redirect "login.html"]
      else [.gateStart, .fetchIssued, .render] ++ gateContinuation required fetch

/-- The formalisation of the verify-then-render claim on a trace: true
when rendering never begins before the authorized event has occurred. -/
def renderOnlyAfterAuthorized : List PageEvent → Bool
  | [] => true
  | .authorized :: _ => true
  | .render :: _ => false
  | _ :: rest => renderOnlyAfterAuthorized rest

/-! ## Claim theorems: the Client Gate -/

/-- C1: the authorization outcome of the Client Gate never depends on the
client-side display cache; it is a function of the stored credential and
the Session Endpoint response alone, so two runs over stores that differ
only in the userCache slot (hence agree on the token slot) reach the same
outcome. -/
theorem C1_outcome_cache_independent (required : String) (s₁ s₂ : Store)
    (fetch : FetchResult)
    (h : storeGet s₁ "token" = storeGet s₂ "token") :
    (clientGate required s₁ fetch).outcome
      = (clientGate required s₂ fetch).outcome := by
  unfold clientGate
  rw [h]
  cases hx : storeGet s₂ "token" with
  | none => rfl
  | some tok =>
      by_cases ht : tok = ""
      · simp [ht]
      · simp [ht, gateAfterFetch_outcome_const required s₁ s₂ fetch]

/-- Witness for C1: two stores sharing the token but with different
userCache contents, including a forged admin label, give the same
outcome. -/
theorem C1_outcome_cache_independent_witness :
    storeGet [("token", "t"), ("userCache", "role:user")] "token"
      = storeGet [("token", "t"), ("userCache", "role:admin")] "token" ∧
    (clientGate "admin" [("token", "t"), ("userCache", "role:user")]
        (.response true (some ⟨"user", []⟩))).outcome
      = (clientGate "admin" [("token", "t"), ("userCache", "role:admin")]
        (.response true (some ⟨"user", []⟩))).outcome :=
  ⟨by decide,
   C1_outcome_cache_independent "admin"
     [("token", "t"), ("userCache", "role:user")]
     [("token", "t"), ("userCache", "role:admin")]
     (.response true (some ⟨"user", []⟩)) (by decide)⟩

/-- C4: when the endpoint succeeds but the returned role differs from the
required role, the gate shows the access-denied alert, clears storage
(hence the credential), redirects, and is never authorized; rejections of
the Unauthenticated kind show no alert, so the denial is distinct. -/
theorem C4_role_mismatch_denies (required : String) (store : Store)
    (tok : String) (u : UserJson) (b : Option UserJson)
    (h : storeGet store "token" = some tok) (ht : tok ≠ "")
    (hm : u.role ≠ required) :
    clientGate required store (.response true (some u)) =
      { outcome := .redirecting "login.html"
        store := []
        alerts := ["Access denied. " ++ required ++ " role required."]
        fetches := 1 } ∧
    (clientGate required store (.response true (some u))).outcome
      ≠ GateOutcome.authorized ∧
    (clientGate required store (.response false b)).alerts = [] ∧
    (clientGate required store .netFailure).alerts = [] := by
  rw [clientGate_token_some required store _ tok h ht,
    clientGate_token_some required store _ tok h ht,
    clientGate_token_some required store _ tok h ht]
  refine ⟨?_, ?_, rfl, rfl⟩ <;> simp [gateAfterFetch, hm, rejectionResult]

/-- Witness for C4 at a concrete pharmacy page visited by a user. -/
theorem C4_role_mismatch_denies_witness :
    storeGet [("token", "t")] "token" = some "t" ∧ "t" ≠ "" ∧
    UserJson.role ⟨"user", []⟩ ≠ "pharmacy" ∧
    (clientGate "pharmacy" [("token", "t")]
        (.response true (some ⟨"user", []⟩)) =
      { outcome := .redirecting "login.html"
        store := []
        alerts := ["Access denied. pharmacy role required."]
        fetches := 1 } ∧
    (clientGate "pharmacy" [("token", "t")]
        (.response true (some ⟨"user", []⟩))).outcome
      ≠ GateOutcome.authorized ∧
    (clientGate "pharmacy" [("token", "t")] (.response false none)).alerts = [] ∧
    (clientGate "pharmacy" [("token", "t")] .netFailure).alerts = []) :=
  ⟨by decide, by decide, by decide,
   C4_role_mismatch_denies "pharmacy" [("token", "t")] "t" ⟨"user", []⟩ none
     (by decide) (by decide) (by decide)⟩

/-- C7: with no stored credential the gate redirects to the
unauthenticated entry point at once: no fetch is issued, no alert is
shown, and storage is left untouched. -/
theorem C7_no_token_redirects_without_network (required : String)
    (store : Store) (fetch : FetchResult)
    (h : storeGet store "token" = none) :
    clientGate required store fetch =
      { outcome := .redirecting "login.html"
        store := store
        alerts := []
        fetches := 0 } := by
  unfold clientGate
  rw [h]

/-- Witness for C7: a store holding only a stale display cache. -/
theorem C7_no_token_redirects_without_network_witness :
    storeGet [("userCache", "role:admin")] "token" = none ∧
    clientGate "admin" [("userCache", "role:admin")] .netFailure =
      { outcome := .redirecting "login.html"
        store := [("userCache", "role:admin")]
        alerts := []
        fetches := 0 } :=
  ⟨by decide,
   C7_no_token_redirects_without_network "admin" [("userCache", "role:admin")]
     .netFailure (by decide)⟩

/-- C8: a non-ok response or a network-level failure makes the gate clear
all of localStorage (credential and display cache included), redirect,
and stop after the single fetch it issued: no retry. -/
theorem C8_rejection_clears_and_redirects (required : String) (store : Store)
    (tok : String) (b : Option UserJson)
    (h : storeGet store "token" = some tok) (ht : tok ≠ "") :
    clientGate required store .netFailure =
      { outcome := .redirecting "login.html"
        store := []
        alerts := []
        fetches := 1 } ∧
    clientGate required store (.response false b) =
      { outcome := .redirecting "login.html"
        store := []
        alerts := []
        fetches := 1 } := by
  rw [clientGate_token_some required store _ tok h ht,
    clientGate_token_some required store _ tok h ht]
  exact ⟨rfl, rfl⟩

/-- Witness for C8 on a store that also holds unrelated state. -/
theorem C8_rejection_clears_and_redirects_witness :
    storeGet [("token", "t"), ("cart", "3")] "token" = some "t" ∧ "t" ≠ "" ∧
    (clientGate "user" [("token", "t"), ("cart", "3")] .netFailure =
      { outcome := .redirecting "login.html"
        store := []
        alerts := []
        fetches := 1 } ∧
    clientGate "user" [("token", "t"), ("cart", "3")] (.response false none) =
      { outcome := .redirecting "login.html"
        store := []
        alerts := []
        fetches := 1 }) :=
  ⟨by decide, by decide,
   C8_rejection_clears_and_redirects "user" [("token", "t"), ("cart", "3")]
     "t" none (by decide) (by decide)⟩

/-- C9: on success with the matching role, the gate writes the serialized
returned identity into the userCache slot, touches nothing else (in
particular the token binding survives unchanged), shows no alert, and
ends authorized after its single fetch. -/
theorem C9_success_caches_and_authorizes (required : String) (store : Store)
    (tok : String) (u : UserJson)
    (h : storeGet store "token" = some tok) (ht : tok ≠ "")
    (hrole : u.role = required) :
    (clientGate required store (.response true (some u))).outcome
      = GateOutcome.authorized ∧
    (clientGate required store (.response true (some u))).store
      = storeSet store "userCache" (stringifyUser u) ∧
    storeGet (clientGate required store (.response true (some u))).store "token"
      = storeGet store "token" ∧
    (clientGate required store (.response true (some u))).alerts = [] ∧
    (clientGate required store (.response true (some u))).fetches = 1 := by
  rw [clientGate_token_some required store _ tok h ht]
  refine ⟨?_, ?_, ?_, ?_, ?_⟩ <;>
    simp [gateAfterFetch, hrole,
      storeGet_storeSet_ne store "userCache" (stringifyUser u) "token" (by decide)]

/-- Witness for C9 on a concrete user page load. -/
theorem C9_success_caches_and_authorizes_witness :
    storeGet [("token", "t")] "token" = some "t" ∧ "t" ≠ "" ∧
    UserJson.role ⟨"user", [("name", "Jo")]⟩ = "user" ∧
    ((clientGate "user" [("token", "t")]
        (.response true (some ⟨"user", [("name", "Jo")]⟩))).outcome
      = GateOutcome.authorized ∧
    (clientGate "user" [("token", "t")]
        (.response true (some ⟨"user", [("name", "Jo")]⟩))).store
      = storeSet [("token", "t")] "userCache"
          (stringifyUser ⟨"user", [("name", "Jo")]⟩) ∧
    storeGet (clientGate "user" [("token", "t")]
        (.response true (some ⟨"user", [("name", "Jo")]⟩))).store "token"
      = storeGet [("token", "t")] "token" ∧
    (clientGate "user" [("token", "t")]
        (.response true (some ⟨"user", [("name", "Jo")]⟩))).alerts = [] ∧
    (clientGate "user" [("token", "t")]
        (.response true (some ⟨"user", [("name", "Jo")]⟩))).fetches = 1) :=
  ⟨by decide, by decide, by decide,
   C9_success_caches_and_authorizes "user" [("token", "t")] "t"
     ⟨"user", [("name", "Jo")]⟩ (by decide) (by decide) (by decide)⟩

/-- C10: every rejection path that runs after the fetch empties the whole
store via localStorage.clear, unrelated keys included, while the success
path performs exactly one write, to the userCache slot. -/
theorem C10_clear_is_total_success_writes_cache_only (required : String)
    (store : Store) (tok : String) (u₁ u₂ : UserJson) (b : Option UserJson)
    (h : storeGet store "token" = some tok) (ht : tok ≠ "")
    (hm : u₁.role ≠ required) (hs : u₂.role = required) :
    (clientGate required store .netFailure).store = [] ∧
    (clientGate required store (.response false b)).store = [] ∧
    (clientGate required store (.response true none)).store = [] ∧
    (clientGate required store (.response true (some u₁))).store = [] ∧
    (clientGate required store (.response true (some u₂))).store
      = storeSet store "userCache" (stringifyUser u₂) := by
  rw [clientGate_token_some required store _ tok h ht,
    clientGate_token_some required store _ tok h ht,
    clientGate_token_some required store _ tok h ht,
    clientGate_token_some required store _ tok h ht,
    clientGate_token_some required store _ tok h ht]
  refine ⟨rfl, rfl, rfl, ?_, ?_⟩ <;> simp [gateAfterFetch, hm, hs]

/-- Witness for C10 on a store carrying an unrelated cart key. -/
theorem C10_clear_is_total_success_writes_cache_only_witness :
    storeGet [("token", "t"), ("cart", "3")] "token" = some "t" ∧ "t" ≠ "" ∧
    UserJson.role ⟨"admin", []⟩ ≠ "user" ∧ UserJson.role ⟨"user", []⟩ = "user" ∧
    ((clientGate "user" [("token", "t"), ("cart", "3")] .netFailure).store = [] ∧
    (clientGate "user" [("token", "t"), ("cart", "3")]
        (.response false none)).store = [] ∧
    (clientGate "user" [("token", "t"), ("cart", "3")]
        (.response true none)).store = [] ∧
    (clientGate "user" [("token", "t"), ("cart", "3")]
        (.response true (some ⟨"admin", []⟩))).store = [] ∧
    (clientGate "user" [("token", "t"), ("cart", "3")]
        (.response true (some ⟨"user", []⟩))).store
      = storeSet [("token", "t"), ("cart", "3")] "userCache"
          (stringifyUser ⟨"user", []⟩)) :=
  ⟨by decide, by decide, by decide, by decide,
   C10_clear_is_total_success_writes_cache_only "user"
     [("token", "t"), ("cart", "3")] "t" ⟨"admin", []⟩ ⟨"user", []⟩ none
     (by decide) (by decide) (by decide) (by decide)⟩

/-! ## Claim theorems: the Session Endpoint -/

/-- An identity store with no records, for concrete instantiations. -/
def emptyDb : String → Option UserRecord := fun _ => none

/-- A credential payload whose account no longer exists in emptyDb. -/
def demoPayload : JwtPayload :=
  { userId := "u1", email := "u1@mail", role := "admin" }

/-- C5: a credential that passed verification but whose identifier has no
record in the store is answered by the fixed 404 rejection: success is
false and no user data is returned, so nothing embedded in the credential
(role, email) can leak into the response. -/
theorem C5_missing_identity_rejected (p : JwtPayload)
    (db : String → Option UserRecord) (h : db p.userId = none) :
    sessionEndpoint (.ok p) db =
      { status := 404
        success := false
        message := "User not found"
        user := none } := by
  simp [sessionEndpoint, getMe, h]

/-- Witness for C5: a verified admin credential over the empty store. -/
theorem C5_missing_identity_rejected_witness :
    emptyDb demoPayload.userId = none ∧
    sessionEndpoint (.ok demoPayload) emptyDb =
      { status := 404
        success := false
        message := "User not found"
        user := none } :=
  ⟨rfl, C5_missing_identity_rejected demoPayload emptyDb rfl⟩

/-- C6: a successful response returns exactly the projection of the
stored record; the projection ignores the password hash (replacing the
stored hash changes nothing), and each role-specific pair is present
precisely when the record carries the matching role. -/
theorem C6_projection_excludes_secrets_and_is_role_shaped (p : JwtPayload)
    (db : String → Option UserRecord) (rec : UserRecord) (pw : String)
    (h : db p.userId = some rec) :
    (sessionEndpoint (.ok p) db).success = true ∧
    (sessionEndpoint (.ok p) db).user = some (projectUser rec) ∧
    projectUser (withPassword rec pw) = projectUser rec ∧
    (projectUser rec).pharmacyName
      = (if rec.role = "pharmacy" then some rec.pharmacyName else none) ∧
    (projectUser rec).licenseNumber
      = (if rec.role = "pharmacy" then some rec.licenseNumber else none) ∧
    (projectUser rec).firstName
      = (if rec.role = "delivery" then some rec.firstName else none) ∧
    (projectUser rec).vehicleType
      = (if rec.role = "delivery" then some rec.vehicleType else none) := by
  refine ⟨?_, ?_, rfl, rfl, rfl, rfl, rfl⟩ <;> simp [sessionEndpoint, getMe, h]

/-- A concrete pharmacy record for instantiating the server theorems. -/
def pharmacyRec : UserRecord :=
  { id := "u1"
    name := "Jo"
    email := "u1@mail"
    role := "pharmacy"
    phone := "7"
    address := "Main St"
    createdAt := "2024"
    password := "hash1"
    pharmacyName := "Apollo"
    licenseNumber := "PH1"
    firstName := "Jo"
    vehicleType := "van" }

/-- An identity store holding exactly the pharmacy record under u1. -/
def pharmacyDb : String → Option UserRecord :=
  fun i => if i = "u1" then some pharmacyRec else none

/-- Witness for C6: the pharmacy record under a different stored hash. -/
theorem C6_projection_excludes_secrets_and_is_role_shaped_witness :
    pharmacyDb demoPayload.userId = some pharmacyRec ∧
    ((sessionEndpoint (.ok demoPayload) pharmacyDb).success = true ∧
    (sessionEndpoint (.ok demoPayload) pharmacyDb).user
      = some (projectUser pharmacyRec) ∧
    projectUser (withPassword pharmacyRec "hash2") = projectUser pharmacyRec ∧
    (projectUser pharmacyRec).pharmacyName
      = (if pharmacyRec.role = "pharmacy"
          then some pharmacyRec.pharmacyName else none) ∧
    (projectUser pharmacyRec).licenseNumber
      = (if pharmacyRec.role = "pharmacy"
          then some pharmacyRec.licenseNumber else none) ∧
    (projectUser pharmacyRec).firstName
      = (if pharmacyRec.role = "delivery"
          then some pharmacyRec.firstName else none) ∧
    (projectUser pharmacyRec).vehicleType
      = (if pharmacyRec.role = "delivery"
          then some pharmacyRec.vehicleType else none)) :=
  ⟨by decide,
   C6_projection_excludes_secrets_and_is_role_shaped demoPayload pharmacyDb
     pharmacyRec "hash2" (by decide)⟩

/-- C2 counterexample: over the empty store, the identity-not-found
rejection of the Session Endpoint differs from the rejection produced for
a credential-verification failure, and its body message even names the
failing step, so the two rejections are distinguishable by the caller,
contrary to the claim. -/
theorem C2_counterexample :
    (sessionEndpoint (.ok demoPayload) emptyDb).success = false ∧
    (sessionEndpoint (.error .signatureInvalid) emptyDb).success = false ∧
    sessionEndpoint (.ok demoPayload) emptyDb
      ≠ sessionEndpoint (.error .signatureInvalid) emptyDb ∧
    (sessionEndpoint (.ok demoPayload) emptyDb).status = 404 ∧
    (sessionEndpoint (.error .signatureInvalid) emptyDb).status = 401 ∧
    (sessionEndpoint (.ok demoPayload) emptyDb).message = "User not found" := by
  refine ⟨rfl, rfl, ?_, rfl, rfl, rfl⟩
  decide

/-- C2 as amended: the three credential-verification failures (malformed,
bad signature, expired) do collapse to one generic rejection carrying no
step detail, but the identity-not-found case is a distinguishable
rejection of its own: status 404 with the message User not found. -/
theorem C2_generic_rejection_except_identity_lookup (e₁ e₂ : VerifyError)
    (p : JwtPayload) (db : String → Option UserRecord)
    (h : db p.userId = none) :
    sessionEndpoint (.error e₁) db = sessionEndpoint (.error e₂) db ∧
    (sessionEndpoint (.error e₁) db).status = 401 ∧
    (sessionEndpoint (.error e₁) db).message = "Unauthenticated" ∧
    (sessionEndpoint (.ok p) db).success = false ∧
    (sessionEndpoint (.ok p) db).status = 404 ∧
    (sessionEndpoint (.ok p) db).message = "User not found" ∧
    sessionEndpoint (.ok p) db ≠ sessionEndpoint (.error e₁) db := by
  refine ⟨rfl, rfl, rfl, ?_, ?_, ?_, ?_⟩ <;> simp [sessionEndpoint, getMe, h]
  decide

/-- Witness for the amended C2 over the empty store. -/
theorem C2_generic_rejection_except_identity_lookup_witness :
    emptyDb demoPayload.userId = none ∧
    (sessionEndpoint (.error .malformed) emptyDb
      = sessionEndpoint (.error .expired) emptyDb ∧
    (sessionEndpoint (.error .malformed) emptyDb).status = 401 ∧
    (sessionEndpoint (.error .malformed) emptyDb).message = "Unauthenticated" ∧
    (sessionEndpoint (.ok demoPayload) emptyDb).success = false ∧
    (sessionEndpoint (.ok demoPayload) emptyDb).status = 404 ∧
    (sessionEndpoint (.ok demoPayload) emptyDb).message = "User not found" ∧
    sessionEndpoint (.ok demoPayload) emptyDb
      ≠ sessionEndpoint (.error .malformed) emptyDb) :=
  ⟨rfl,
   C2_generic_rejection_except_identity_lookup .malformed .expired demoPayload
     emptyDb rfl⟩

/-! ## Claim theorems: render ordering -/

/-- C3 counterexample: on a load with a stored token whose endpoint call
succeeds with the matching role, the protected content renders while the
fetch is pending, before the gate reaches its authorized verdict, so
rendering is not blocked until Authorized as claimed. -/
theorem C3_counterexample :
    renderOnlyAfterAuthorized
      (pageLoadTrace "user" [("token", "t")]
        (.response true (some ⟨"user", []⟩))) = false := by
  decide

/-- C3 as amended: only the synchronous credential-absence check runs
before rendering; whenever a credential is present the gate suspends on
the round trip and the protected content renders immediately after the
fetch is issued, with every verdict event (alert, clear, redirect,
authorized) strictly after the render event. -/
theorem C3_render_precedes_gate_verdict (required : String) (store : Store)
    (fetch : FetchResult) (tok : String)
    (h : storeGet store "token" = some tok) (ht : tok ≠ "") :
    pageLoadTrace required store fetch =
      [.gateStart, .fetchIssued, .render] ++ gateContinuation required fetch ∧
    PageEvent.render ∉ gateContinuation required fetch := by
  constructor
  · unfold pageLoadTrace
    rw [h]
    simp [ht]
  · cases fetch with
    | netFailure => simp [gateContinuation]
    | response ok body =>
        cases ok with
        | false => simp [gateContinuation]
        | true =>
            cases body with
            | none => simp [gateContinuation]
            | some u =>
                by_cases hrole : u.role = required <;>
                  simp [gateContinuation, hrole]

/-- Witness for the amended C3 on a concrete rejected load. -/
theorem C3_render_precedes_gate_verdict_witness :
    storeGet [("token", "t")] "token" = some "t" ∧ "t" ≠ "" ∧
    (pageLoadTrace "user" [("token", "t")] (.response false none) =
      [.gateStart, .fetchIssued, .render]
        ++ gateContinuation "user" (.response false none) ∧
    PageEvent.render ∉ gateContinuation "user" (.response false none)) :=
  ⟨by decide, by decide,
   C3_render_precedes_gate_verdict "user" [("token", "t")]
     (.response false none) "t" (by decide) (by decide)⟩

end Medassist
